import Mathlib

/-!
Shallow embedding of the pairing/queue engine of the anonymous-chat bot
(source: src/anon_bot.py; src/api/webhook.py duplicates the same core
functions verbatim, so one embedding covers both entry points).

The three Postgres tables are modelled as association lists keyed by
user_id, in insertion order (Postgres upsert updates a row in place and
plain INSERT appends; the only order-sensitive read is the
ORDER BY timestamp in get_queue, which is modelled by argmin on the
timestamp field).  Timestamps are natural numbers: seconds for the
database tables (the reaper interval of 5 minutes is 300), milliseconds
for the in-memory rate limiter (the 1-second window is 1000).
Randomly generated pseudonyms are threaded as explicit parameters, since
the random generator itself is outside the state the claims speak about.
-/

/-- Row of the queues table: user_id PK, gender, nick, timestamp. -/
structure QueueRow where
  user_id : Nat
  gender : String
  nick : String
  timestamp : Nat
  deriving DecidableEq, Repr

/-- Row of the active_chats table: user_id PK, partner_id, timestamp. -/
structure ChatRow where
  user_id : Nat
  partner_id : Nat
  timestamp : Nat
  deriving DecidableEq, Repr

/-- Row of the user_genders table: user_id PK, gender. -/
structure GenderRow where
  user_id : Nat
  gender : String
  deriving DecidableEq, Repr

/-- The persistent store: the three tables created by init_db. -/
structure DB where
  queues : List QueueRow
  active_chats : List ChatRow
  user_genders : List GenderRow
  deriving DecidableEq, Repr

/-- SELECT * FROM active_chats WHERE user_id = u (PK lookup). -/
def rowFor (cs : List ChatRow) (u : Nat) : Option ChatRow :=
  cs.find? (fun r => r.user_id == u)

/-- SELECT * FROM queues WHERE user_id = u (PK lookup). -/
def queueRowFor (qs : List QueueRow) (u : Nat) : Option QueueRow :=
  qs.find? (fun r => r.user_id == u)

/-- SELECT * FROM user_genders WHERE user_id = u (PK lookup). -/
def genderRowFor (gs : List GenderRow) (u : Nat) : Option GenderRow :=
  gs.find? (fun r => r.user_id == u)

/-- The user_id column of a chat table holds no duplicates (PRIMARY KEY). -/
def ChatPKUnique (cs : List ChatRow) : Prop :=
  (cs.map ChatRow.user_id).Nodup

/-- The user_id column of the queues table holds no duplicates (PRIMARY KEY). -/
def QueuePKUnique (qs : List QueueRow) : Prop :=
  (qs.map QueueRow.user_id).Nodup

instance decChatPKUnique (cs : List ChatRow) : Decidable (ChatPKUnique cs) :=
  inferInstanceAs (Decidable (cs.map ChatRow.user_id).Nodup)

instance decQueuePKUnique (qs : List QueueRow) : Decidable (QueuePKUnique qs) :=
  inferInstanceAs (Decidable (qs.map QueueRow.user_id).Nodup)

/-- Session symmetry: every row (U, P, t) has the mirror row (P, U, t). -/
def SymmChats (cs : List ChatRow) : Prop :=
  ∀ r ∈ cs,
    rowFor cs r.partner_id =
      some { user_id := r.partner_id, partner_id := r.user_id, timestamp := r.timestamp }

instance decSymmChats (cs : List ChatRow) : Decidable (SymmChats cs) :=
  inferInstanceAs (Decidable (∀ r ∈ cs,
    rowFor cs r.partner_id =
      some { user_id := r.partner_id, partner_id := r.user_id, timestamp := r.timestamp }))

/-- FORBIDDEN_WORDS, the static denylist of source line 29: spam, badword. -/
def FORBIDDEN_WORDS : List String := ["spam", "badword"]

/-- Does the character list start with the given pattern. -/
def charsStartWith : List Char → List Char → Bool
  | _, [] => true
  | [], _ :: _ => false
  | c :: cs, d :: ds => c == d && charsStartWith cs ds

/-- Python substring containment (the in operator on str): needle occurs
contiguously in hay. -/
def charsContain : List Char → List Char → Bool
  | [], needle => charsStartWith [] needle
  | c :: t, needle => charsStartWith (c :: t) needle || charsContain t needle

/-- Python str.lower() on the character list of a string (ASCII-faithful). -/
def strLower (s : String) : List Char :=
  s.data.map Char.toLower

/-- check_forbidden(text): any(word in text.lower() for word in FORBIDDEN_WORDS)
(source line 54). -/
def check_forbidden (text : String) : Bool :=
  FORBIDDEN_WORDS.any (fun word => charsContain (strLower text) word.data)

/-- The rolling rate-limit window: 1 second, in milliseconds. -/
def rateWindow : Nat := 1000

/-- is_rate_limited(user_id) (source lines 63-70): prune the per-user
timestamp list to the trailing window, return True (limited) if a
timestamp survives, else record now and return False.  The in-memory
defaultdict(list) is modelled as a total function with default []. -/
def is_rate_limited (now : Nat) (user_id : Nat) (rl : Nat → List Nat) :
    Bool × (Nat → List Nat) :=
  let pruned := (rl user_id).filter (fun t => now - t < rateWindow)
  if pruned.length ≥ 1 then
    (true, fun u => if u == user_id then pruned else rl u)
  else
    (false, fun u => if u == user_id then pruned ++ [now] else rl u)

/-- get_queue(gender) (source lines 142-159): SELECT the row of that gender
with minimal timestamp (ORDER BY timestamp LIMIT 1), DELETE it by
user_id, and return (user_id, nick, gender); None and no change when the
pool for that gender is empty. -/
def get_queue (g : String) (db : DB) : Option (Nat × String × String) × DB :=
  match (db.queues.filter (fun r => r.gender == g)).argmin QueueRow.timestamp with
  | some row =>
      (some (row.user_id, row.nick, row.gender),
       { db with queues := db.queues.filter (fun r => !(r.user_id == row.user_id)) })
  | none => (none, db)

/-- add_to_queue (source lines 161-172): INSERT ... ON CONFLICT (user_id)
DO UPDATE SET gender, nick, timestamp = NOW(). -/
def add_to_queue (user_id : Nat) (g : String) (nick : String) (now : Nat) (db : DB) : DB :=
  if db.queues.any (fun r => r.user_id == user_id) then
    { db with
      queues := db.queues.map (fun r =>
        if r.user_id == user_id then
          { r with gender := g, nick := nick, timestamp := now }
        else r) }
  else
    { db with
      queues := db.queues ++ [{ user_id := user_id, gender := g, nick := nick, timestamp := now }] }

/-- remove_from_queue (source lines 174-185): DELETE FROM queues WHERE user_id. -/
def remove_from_queue (user_id : Nat) (db : DB) : DB :=
  { db with queues := db.queues.filter (fun r => !(r.user_id == user_id)) }

/-- One tuple of the two-row INSERT in try_pair_gender:
INSERT INTO active_chats (user_id, partner_id) VALUES ... ON CONFLICT (user_id)
DO UPDATE SET partner_id = %s.  The DO UPDATE clause carries the single
bound value fixedPartner (the partner_id parameter of the statement) for
whichever row conflicts; a freshly inserted row gets the default
timestamp NOW(). -/
def upsert_chat (pk pid fixedPartner now : Nat) (cs : List ChatRow) : List ChatRow :=
  if cs.any (fun r => r.user_id == pk) then
    cs.map (fun r => if r.user_id == pk then { r with partner_id := fixedPartner } else r)
  else
    cs ++ [{ user_id := pk, partner_id := pid, timestamp := now }]

/-- The session-creation transaction inside try_pair_gender (source lines
205-207): the two-row upsert VALUES (u, p), (p, u) ON CONFLICT (user_id)
DO UPDATE SET partner_id = p, followed in the same transaction by
UPDATE active_chats SET timestamp = NOW() WHERE user_id IN (u, p).
The model assumes u ≠ p: with u = p the two VALUES tuples share a key
and Postgres aborts the statement, so that case never commits. -/
def create_pair (now user_id partner_id : Nat) (cs : List ChatRow) : List ChatRow :=
  (upsert_chat partner_id user_id partner_id now
      (upsert_chat user_id partner_id partner_id now cs)).map (fun r =>
    if r.user_id == user_id || r.user_id == partner_id then
      { r with timestamp := now }
    else r)

/-- The effect of stop on the active_chats table alone (the end operation
of the Session Store, source lines 335-343): look up the partner of u;
if found, DELETE both keys; then the unconditional DELETE of key u. -/
def end_chats (u : Nat) (cs : List ChatRow) : List ChatRow :=
  let cs1 :=
    match rowFor cs u with
    | some r => cs.filter (fun (x : ChatRow) => !(x.user_id == u || x.user_id == r.partner_id))
    | none => cs
  cs1.filter (fun (x : ChatRow) => !(x.user_id == u))

/-- The reaper sweep body (cleanup_inactive, source line 113):
DELETE FROM active_chats WHERE timestamp is older than NOW() minus the
5-minute interval (strict comparison), with time in seconds. -/
def cleanup_chats (now : Nat) (cs : List ChatRow) : List ChatRow :=
  cs.filter (fun r => !(r.timestamp < now - 300))

/-- Observable outcome of try_pair_gender (which notification path ran). -/
inductive PairOutcome where
  | alreadyPaired
  | paired (partner_id : Nat)
  | queued (nick : String)
  | storeError
  deriving DecidableEq, Repr

/-- try_pair_gender(user_id, gender) (source lines 187-246).  nick stands
for the pseudonym generate_pseudonym(gender) returns in the enqueue
branch.  Control flow: return if already in active_chats; for male
(female) claim the oldest female (male) queue entry and create the pair;
any other path falls through to the upsert into queues. -/
def try_pair_gender (now : Nat) (nick : String) (user_id : Nat) (g : String) (db : DB) :
    DB × PairOutcome :=
  if (rowFor db.active_chats user_id).isSome then
    (db, PairOutcome.alreadyPaired)
  else if g == "male" then
    match get_queue "female" db with
    | (some pd, db1) =>
        ({ db1 with active_chats := create_pair now user_id pd.1 db1.active_chats },
         PairOutcome.paired pd.1)
    | (none, db1) => (add_to_queue user_id g nick now db1, PairOutcome.queued nick)
  else if g == "female" then
    match get_queue "male" db with
    | (some pd, db1) =>
        ({ db1 with active_chats := create_pair now user_id pd.1 db1.active_chats },
         PairOutcome.paired pd.1)
    | (none, db1) => (add_to_queue user_id g nick now db1, PairOutcome.queued nick)
  else
    (add_to_queue user_id g nick now db, PairOutcome.queued nick)

/-- The run of try_pair_gender in which the INSERT INTO active_chats raises
a storage error.  get_queue has already committed its own transaction
(SELECT + DELETE + commit, source lines 147-151) before the insert runs;
the raised error lands in the except handler (source lines 244-246),
which only logs and messages the user, so no further table changes
happen and nothing is compensated. -/
def try_pair_gender_insertFail (now : Nat) (nick : String) (user_id : Nat) (g : String)
    (db : DB) : DB × PairOutcome :=
  if (rowFor db.active_chats user_id).isSome then
    (db, PairOutcome.alreadyPaired)
  else if g == "male" then
    match get_queue "female" db with
    | (some _, db1) => (db1, PairOutcome.storeError)
    | (none, db1) => (add_to_queue user_id g nick now db1, PairOutcome.queued nick)
  else if g == "female" then
    match get_queue "male" db with
    | (some _, db1) => (db1, PairOutcome.storeError)
    | (none, db1) => (add_to_queue user_id g nick now db1, PairOutcome.queued nick)
  else
    (add_to_queue user_id g nick now db, PairOutcome.queued nick)

/-- stop(user_id) (source lines 331-350).  Returns the new store and the
partner that was sent the your-partner-stopped notification, if any:
look up the partner; if present, notify them, DELETE both active_chats
keys and withdraw the partner from the queue; then unconditionally
DELETE the active_chats row, user_genders row and queue row of the caller. -/
def stop (user_id : Nat) (db : DB) : DB × Option Nat :=
  let pr := rowFor db.active_chats user_id
  let db1 :=
    match pr with
    | some r =>
        remove_from_queue r.partner_id
          { db with
            active_chats := db.active_chats.filter (fun x =>
              !(x.user_id == user_id || x.user_id == r.partner_id)) }
    | none => db
  let db2 :=
    { db1 with
      active_chats := db1.active_chats.filter (fun x => !(x.user_id == user_id)),
      user_genders := db1.user_genders.filter (fun x => !(x.user_id == user_id)) }
  (remove_from_queue user_id db2,
   match pr with
   | some r => some r.partner_id
   | none => none)

/-- Full process state for the relay path: in-memory rate limiter plus DB. -/
structure Sys where
  rl : Nat → List Nat
  db : DB

/-- Observable outcome of handle_generic_message. -/
inductive RelayOutcome where
  | rateLimited
  | notPaired
  | policyRejected
  | sentText (target : Nat) (body : String)
  | forwardedMedia (target : Nat)
  deriving DecidableEq, Repr

/-- handle_generic_message (source lines 361-392): rate-limit gate, partner
lookup (a missing row or a falsy partner_id of 0 both read as not
paired), then for text the forbidden-word gate and the send of
"*Anon:* " ++ text to the partner; other content types are forwarded. -/
def handle_generic_message (now : Nat) (user_id : Nat) (isText : Bool) (text : String)
    (s : Sys) : Sys × RelayOutcome :=
  let res := is_rate_limited now user_id s.rl
  if res.1 then
    ({ s with rl := res.2 }, RelayOutcome.rateLimited)
  else
    let s1 : Sys := { s with rl := res.2 }
    match rowFor s1.db.active_chats user_id with
    | none => (s1, RelayOutcome.notPaired)
    | some r =>
        if r.partner_id == 0 then (s1, RelayOutcome.notPaired)
        else if isText then
          if check_forbidden text then (s1, RelayOutcome.policyRejected)
          else (s1, RelayOutcome.sentText r.partner_id ("*Anon:* " ++ text))
        else (s1, RelayOutcome.forwardedMedia r.partner_id)

/-- One inbound relay message: arrival time, sender, content kind, text. -/
structure MsgInput where
  now : Nat
  user_id : Nat
  isText : Bool
  text : String

/-- A whole sequence of relay messages processed in order. -/
def relayMany (msgs : List MsgInput) (s : Sys) : Sys :=
  msgs.foldl (fun st m => (handle_generic_message m.now m.user_id m.isText m.text st).1) s

/-- A store reached from the empty store by three try_pair_gender calls:
users 10 and 11 enqueue as male (empty female pool), then user 11
re-declares female and is paired with user 10 — while the stale male
queue row of user 11 survives, since the pairing path deletes only the
claimed candidate row, never the row of the caller.  In this state user
11 is simultaneously waiting in the male pool and holding a session. -/
def queuedWhilePairedStore : DB :=
  (try_pair_gender 3 "n3" 11 "female"
    (try_pair_gender 2 "n2" 11 "male"
      (try_pair_gender 1 "n1" 10 "male"
        { queues := [], active_chats := [], user_genders := [] }).1).1).1

/-! ### Helper lemmas about the embedded operations -/

theorem rowFor_eq_none_iff (cs : List ChatRow) (u : Nat) :
    rowFor cs u = none ↔ ∀ r ∈ cs, r.user_id ≠ u := by
  simp [rowFor, List.find?_eq_none]

theorem rowFor_some (cs : List ChatRow) (u : Nat) (r : ChatRow)
    (h : rowFor cs u = some r) : r ∈ cs ∧ r.user_id = u := by
  refine ⟨List.mem_of_find?_eq_some h, ?_⟩
  have h2 := List.find?_some h
  simpa using h2

theorem chat_any_false_iff (cs : List ChatRow) (u : Nat) :
    cs.any (fun r => r.user_id == u) = false ↔ rowFor cs u = none := by
  simp [rowFor, List.find?_eq_none, List.any_eq_true]

theorem filter_self_idem (p : α → Bool) (l : List α) :
    (l.filter p).filter p = l.filter p := by
  rw [List.filter_filter]
  exact List.filter_congr (fun a _ => Bool.and_self (p a))

theorem pk_unique_filter (q : ChatRow → Bool) (cs : List ChatRow) (h : ChatPKUnique cs) :
    ChatPKUnique (cs.filter q) := by
  unfold ChatPKUnique at h ⊢
  exact h.sublist ((List.filter_sublist (p := q) cs).map ChatRow.user_id)

theorem rowFor_filter_pos (q : ChatRow → Bool) :
    ∀ (cs : List ChatRow) (u : Nat) (r : ChatRow),
      rowFor cs u = some r → q r = true → rowFor (cs.filter q) u = some r := by
  intro cs
  induction cs with
  | nil => intro u r h _; simp [rowFor] at h
  | cons x t ih =>
      intro u r h hq
      by_cases hx : (x.user_id == u) = true
      · have hr : r = x := by
          unfold rowFor at h
          rw [@List.find?_cons_of_pos _ (fun r => r.user_id == u) x t hx] at h
          exact (Option.some.inj h).symm
        subst hr
        unfold rowFor
        rw [List.filter_cons_of_pos hq, @List.find?_cons_of_pos _ (fun s => s.user_id == u) r (List.filter q t) hx]
      · rw [Bool.not_eq_true] at hx
        have ht : rowFor t u = some r := by
          unfold rowFor at h
          rwa [@List.find?_cons_of_neg _ (fun r => r.user_id == u) x t (by simp [hx])] at h
        cases hqx : q x with
        | true =>
            unfold rowFor
            rw [List.filter_cons_of_pos hqx, @List.find?_cons_of_neg _ (fun r => r.user_id == u) x (List.filter q t) (by simp [hx])]
            exact ih u r ht hq
        | false =>
            rw [List.filter_cons_of_neg (by simp [hqx])]
            exact ih u r ht hq

theorem rowFor_filter_neg (q : ChatRow → Bool) :
    ∀ (cs : List ChatRow) (u : Nat) (r : ChatRow), ChatPKUnique cs →
      rowFor cs u = some r → q r = false → rowFor (cs.filter q) u = none := by
  intro cs
  induction cs with
  | nil => intro u r _ h _; simp [rowFor] at h
  | cons x t ih =>
      intro u r hnd h hq
      have hnd1 : x.user_id ∉ t.map ChatRow.user_id := by
        unfold ChatPKUnique at hnd
        simp only [List.map_cons, List.nodup_cons] at hnd
        exact hnd.1
      have hnd2 : ChatPKUnique t := by
        unfold ChatPKUnique at hnd ⊢
        simp only [List.map_cons, List.nodup_cons] at hnd
        exact hnd.2
      by_cases hx : (x.user_id == u) = true
      · have hr : r = x := by
          unfold rowFor at h
          rw [@List.find?_cons_of_pos _ (fun r => r.user_id == u) x t hx] at h
          exact (Option.some.inj h).symm
        subst hr
        have hu : r.user_id = u := by simpa using hx
        rw [List.filter_cons_of_neg (by simp [hq])]
        apply (rowFor_eq_none_iff _ _).mpr
        intro s hs hsu
        exact hnd1 (by
          rw [hu]
          rw [List.mem_map]
          exact ⟨s, List.mem_of_mem_filter hs, hsu⟩)
      · rw [Bool.not_eq_true] at hx
        have ht : rowFor t u = some r := by
          unfold rowFor at h
          rwa [@List.find?_cons_of_neg _ (fun r => r.user_id == u) x t (by simp [hx])] at h
        cases hqx : q x with
        | true =>
            unfold rowFor
            rw [List.filter_cons_of_pos hqx, @List.find?_cons_of_neg _ (fun r => r.user_id == u) x (List.filter q t) (by simp [hx])]
            exact ih u r hnd2 ht hq
        | false =>
            rw [List.filter_cons_of_neg (by simp [hqx])]
            exact ih u r hnd2 ht hq

theorem symm_filter (cs : List ChatRow) (q : ChatRow → Bool) (hs : SymmChats cs)
    (hq : ∀ r ∈ cs, q r = true →
      q { user_id := r.partner_id, partner_id := r.user_id, timestamp := r.timestamp } = true) :
    SymmChats (cs.filter q) := by
  intro r hr
  have hr2 := List.mem_of_mem_filter hr
  have hqr : q r = true := (List.mem_filter.mp hr).2
  exact rowFor_filter_pos q cs r.partner_id _ (hs r hr2) (hq r hr2 hqr)

theorem symm_cleanup (now : Nat) (cs : List ChatRow) (hs : SymmChats cs) :
    SymmChats (cleanup_chats now cs) := by
  unfold cleanup_chats
  apply symm_filter cs _ hs
  intro r _ h
  exact h

theorem symm_end (u : Nat) (cs : List ChatRow) (hs : SymmChats cs) :
    SymmChats (end_chats u cs) := by
  unfold end_chats
  cases hcase : rowFor cs u with
  | none =>
      apply symm_filter cs _ hs
      intro r hr hqr
      simp at hqr ⊢
      intro heq
      have hmir := hs r hr
      rw [heq] at hmir
      rw [hcase] at hmir
      exact Option.noConfusion hmir
  | some r0 =>
      have h0 := rowFor_some cs u r0 hcase
      have hq1 : ∀ r ∈ cs,
          (fun (x : ChatRow) => !(x.user_id == u || x.user_id == r0.partner_id)) r = true →
          (fun (x : ChatRow) => !(x.user_id == u || x.user_id == r0.partner_id))
            { user_id := r.partner_id, partner_id := r.user_id, timestamp := r.timestamp } = true := by
        intro r hr hqr
        simp at hqr ⊢
        obtain ⟨hru, hrp⟩ := hqr
        constructor
        · intro heq
          have hmir := hs r hr
          rw [heq, hcase] at hmir
          have : r0 = { user_id := u, partner_id := r.user_id, timestamp := r.timestamp } :=
            Option.some.inj hmir
          exact hrp (by rw [this])
        · intro heq
          have hmir := hs r hr
          have hmir0 := hs r0 h0.1
          rw [heq] at hmir
          rw [h0.2] at hmir0
          rw [hmir0] at hmir
          have := Option.some.inj hmir
          exact hru (congrArg ChatRow.partner_id this).symm
      have hs1 := symm_filter cs _ hs hq1
      apply symm_filter _ _ hs1
      intro r hr hqr
      have hr2 := List.mem_of_mem_filter hr
      have hq1r := (List.mem_filter.mp hr).2
      simp at hq1r
      simp at hqr ⊢
      intro heq
      have hmir := hs r hr2
      rw [heq, hcase] at hmir
      have : r0 = { user_id := u, partner_id := r.user_id, timestamp := r.timestamp } :=
        Option.some.inj hmir
      exact hq1r.2 (by rw [this])

theorem create_pair_fresh (now u p : Nat) (cs : List ChatRow)
    (hu : rowFor cs u = none) (hp : rowFor cs p = none) (hne : u ≠ p) :
    create_pair now u p cs =
      cs ++ [{ user_id := u, partner_id := p, timestamp := now },
             { user_id := p, partner_id := u, timestamp := now }] := by
  have hau : cs.any (fun r => r.user_id == u) = false := (chat_any_false_iff cs u).mpr hu
  have hap : cs.any (fun r => r.user_id == p) = false := (chat_any_false_iff cs p).mpr hp
  have h1 : upsert_chat u p p now cs =
      cs ++ [{ user_id := u, partner_id := p, timestamp := now }] := by
    unfold upsert_chat
    rw [hau]
    simp
  have h2 : upsert_chat p u p now (cs ++ [{ user_id := u, partner_id := p, timestamp := now }]) =
      cs ++ [{ user_id := u, partner_id := p, timestamp := now }]
         ++ [{ user_id := p, partner_id := u, timestamp := now }] := by
    unfold upsert_chat
    have hany : (cs ++ [({ user_id := u, partner_id := p, timestamp := now } : ChatRow)]).any
        (fun r => r.user_id == p) = false := by
      rw [List.any_append, hap]
      simp [hne]
    rw [hany]
    simp
  unfold create_pair
  rw [h1, h2]
  have hcsmap : cs.map (fun r =>
      if r.user_id == u || r.user_id == p then { r with timestamp := now } else r) = cs := by
    have hmap : ∀ r ∈ cs, (if r.user_id == u || r.user_id == p
        then { r with timestamp := now } else r) = r := by
      intro r hr
      have h3 : r.user_id ≠ u := (rowFor_eq_none_iff cs u).mp hu r hr
      have h4 : r.user_id ≠ p := (rowFor_eq_none_iff cs p).mp hp r hr
      simp [h3, h4]
    calc cs.map (fun r => if r.user_id == u || r.user_id == p
            then { r with timestamp := now } else r)
        = cs.map id := List.map_congr_left hmap
      _ = cs := List.map_id cs
  rw [List.map_append, List.map_append, hcsmap]
  simp [hne]

theorem symm_create_fresh (now u p : Nat) (cs : List ChatRow) (hs : SymmChats cs)
    (hu : rowFor cs u = none) (hp : rowFor cs p = none) (hne : u ≠ p) :
    SymmChats (create_pair now u p cs) := by
  rw [create_pair_fresh now u p cs hu hp hne]
  intro r hr
  have happ : ∀ (x : Nat),
      rowFor (cs ++ [{ user_id := u, partner_id := p, timestamp := now },
                     { user_id := p, partner_id := u, timestamp := now }]) x =
        (rowFor cs x).or (rowFor [{ user_id := u, partner_id := p, timestamp := now },
                                  { user_id := p, partner_id := u, timestamp := now }] x) :=
    fun x => List.find?_append
  rcases List.mem_append.mp hr with hcs | hL
  · have hmir := hs r hcs
    rw [happ, hmir]
    rfl
  · simp only [List.mem_cons, List.not_mem_nil, or_false] at hL
    rcases hL with h | h
    · subst h
      rw [happ, hp]
      have hup : (u == p) = false := by simp [hne]
      simp [rowFor, List.find?, hup]
    · subst h
      rw [happ, hu]
      simp [rowFor, List.find?]

theorem queue_pk_inj (qs : List QueueRow) (hpk : QueuePKUnique qs) :
    ∀ a ∈ qs, ∀ b ∈ qs, a.user_id = b.user_id → a = b := by
  intro a ha b hb hab
  exact List.inj_on_of_nodup_map hpk ha hb hab

theorem rowFor_filter_key_none (cs : List ChatRow) (u : Nat) :
    rowFor (cs.filter (fun x => !(x.user_id == u))) u = none := by
  apply (rowFor_eq_none_iff _ _).mpr
  intro s hs
  have h2 := (List.mem_filter.mp hs).2
  simpa using h2

theorem get_queue_none (g : String) (db : DB)
    (h : db.queues.filter (fun r => r.gender == g) = []) :
    get_queue g db = (none, db) := by
  unfold get_queue
  rw [h, List.argmin_nil]

theorem get_queue_some (g : String) (db : DB)
    (hne : db.queues.filter (fun r => r.gender == g) ≠ []) :
    ∃ c, c ∈ db.queues ∧ c.gender = g ∧
      (∀ e ∈ db.queues, e.gender = g → c.timestamp ≤ e.timestamp) ∧
      get_queue g db = (some (c.user_id, c.nick, c.gender),
        { db with queues := db.queues.filter (fun r => !(r.user_id == c.user_id)) }) := by
  cases hm : (db.queues.filter (fun r => r.gender == g)).argmin QueueRow.timestamp with
  | none => exact absurd (List.argmin_eq_none.mp hm) hne
  | some c =>
      have hmem : c ∈ db.queues.filter (fun r => r.gender == g) :=
        List.argmin_mem (Option.mem_def.mpr hm)
      refine ⟨c, List.mem_of_mem_filter hmem, ?_, ?_, ?_⟩
      · have h2 := (List.mem_filter.mp hmem).2
        simpa using h2
      · intro e he heg
        exact List.le_of_mem_argmin (List.mem_filter.mpr ⟨he, by simp [heg]⟩)
          (Option.mem_def.mpr hm)
      · unfold get_queue
        rw [hm]

theorem get_queue_frame (g : String) (db : DB) :
    (get_queue g db).2.active_chats = db.active_chats ∧
    (get_queue g db).2.user_genders = db.user_genders := by
  unfold get_queue
  cases (db.queues.filter (fun r => r.gender == g)).argmin QueueRow.timestamp with
  | none => exact ⟨rfl, rfl⟩
  | some c => exact ⟨rfl, rfl⟩

theorem add_to_queue_frame (u : Nat) (g nick : String) (now : Nat) (db : DB) :
    (add_to_queue u g nick now db).active_chats = db.active_chats ∧
    (add_to_queue u g nick now db).user_genders = db.user_genders := by
  unfold add_to_queue
  split
  · exact ⟨rfl, rfl⟩
  · exact ⟨rfl, rfl⟩

theorem relay_frame (now u : Nat) (isText : Bool) (text : String) (s : Sys) :
    (handle_generic_message now u isText text s).1.db = s.db := by
  simp only [handle_generic_message]
  repeat' split
  all_goals rfl

theorem relayMany_db (msgs : List MsgInput) (s : Sys) :
    (relayMany msgs s).db = s.db := by
  induction msgs generalizing s with
  | nil => rfl
  | cons m t ih =>
      have hstep : relayMany (m :: t) s =
          relayMany t ((handle_generic_message m.now m.user_id m.isText m.text s).1) := rfl
      rw [hstep, ih, relay_frame]

/-- C5: stop is idempotent — running stop twice for the same user yields the
same Waiting Pool, Session Store and UserAttribute state as running it
once, and the second run notifies no partner (and, being a total
function, raises no error). -/
theorem stop_idempotent (db : DB) (u : Nat) :
    stop u (stop u db).1 = ((stop u db).1, none) := by
  cases hpr : rowFor db.active_chats u with
  | some r =>
      have h1 : (stop u db).1 =
        { queues := (db.queues.filter (fun x => !(x.user_id == r.partner_id))).filter
            (fun x => !(x.user_id == u)),
          active_chats := (db.active_chats.filter (fun x =>
            !(x.user_id == u || x.user_id == r.partner_id))).filter
              (fun x => !(x.user_id == u)),
          user_genders := db.user_genders.filter (fun x => !(x.user_id == u)) } := by
        simp only [stop, remove_from_queue, hpr]
      rw [h1]
      have h2 : rowFor ((db.active_chats.filter (fun x =>
          !(x.user_id == u || x.user_id == r.partner_id))).filter
            (fun x => !(x.user_id == u))) u = none :=
        rowFor_filter_key_none _ u
      simp only [stop, remove_from_queue, h2]
      simp [filter_self_idem]
  | none =>
      have h1 : (stop u db).1 =
        { queues := db.queues.filter (fun x => !(x.user_id == u)),
          active_chats := db.active_chats.filter (fun x => !(x.user_id == u)),
          user_genders := db.user_genders.filter (fun x => !(x.user_id == u)) } := by
        simp only [stop, remove_from_queue, hpr]
      rw [h1]
      have h2 := rowFor_filter_key_none db.active_chats u
      simp only [stop, remove_from_queue, h2]
      simp [filter_self_idem]

/-- C8: for every user and payload, the relay operation
(handle_generic_message) leaves the Waiting Pool unchanged and only reads
the Session Store (and the user_genders table) in every branch:
rate-limited, not paired, policy-rejected and successful forwarding. -/
theorem relay_pool_session_frame (now u : Nat) (isText : Bool) (text : String) (s : Sys) :
    (handle_generic_message now u isText text s).1.db.queues = s.db.queues ∧
    (handle_generic_message now u isText text s).1.db.active_chats = s.db.active_chats ∧
    (handle_generic_message now u isText text s).1.db.user_genders = s.db.user_genders := by
  refine ⟨?_, ?_, ?_⟩ <;> rw [relay_frame]

/-- C6 counterexample: a successful pairing in try_pair_gender does NOT
clear the declared attribute.  User 1 has declared male, user 2 waits in
the female pool; the call pairs them (session start) yet the
user_genders row of user 1 survives. -/
theorem gender_not_cleared_on_pair_counterexample :
    (try_pair_gender 5 "x" 1 "male"
        { queues := [{ user_id := 2, gender := "female", nick := "n", timestamp := 0 }],
          active_chats := [],
          user_genders := [{ user_id := 1, gender := "male" }] }).2 = PairOutcome.paired 2 ∧
    genderRowFor (try_pair_gender 5 "x" 1 "male"
        { queues := [{ user_id := 2, gender := "female", nick := "n", timestamp := 0 }],
          active_chats := [],
          user_genders := [{ user_id := 1, gender := "male" }] }).1.user_genders 1 =
      some { user_id := 1, gender := "male" } := by
  decide

/-- C6 amended: the declared UserAttribute is cleared when the user invokes
stop, while try_pair_gender (request_match) leaves the user_genders
table untouched in every branch — in particular a successful pairing
does not clear it (the row is kept so that next can re-match with the
last declared attribute). -/
theorem gender_cleared_on_stop_only (db : DB) (u now : Nat) (nick g : String) :
    genderRowFor (stop u db).1.user_genders u = none ∧
    (try_pair_gender now nick u g db).1.user_genders = db.user_genders := by
  constructor
  · have h1 : (stop u db).1.user_genders =
        db.user_genders.filter (fun x => !(x.user_id == u)) := by
      cases hpr : rowFor db.active_chats u with
      | some r => simp only [stop, remove_from_queue, hpr]
      | none => simp only [stop, remove_from_queue, hpr]
    rw [h1]
    apply (List.find?_eq_none).mpr
    intro s hs
    have h2 := (List.mem_filter.mp hs).2
    simpa using h2
  · unfold try_pair_gender
    split
    · rfl
    · split
      · cases hq : get_queue "female" db with
        | mk fst db1 =>
            cases fst with
            | some pd =>
                have := (get_queue_frame "female" db).2
                rw [hq] at this
                simpa using this
            | none =>
                have h3 := (add_to_queue_frame u g nick now db1).2
                have h4 := (get_queue_frame "female" db).2
                rw [hq] at h4
                exact h3.trans (by simpa using h4)
      · split
        · cases hq : get_queue "male" db with
          | mk fst db1 =>
              cases fst with
              | some pd =>
                  have := (get_queue_frame "male" db).2
                  rw [hq] at this
                  simpa using this
              | none =>
                  have h3 := (add_to_queue_frame u g nick now db1).2
                  have h4 := (get_queue_frame "male" db).2
                  rw [hq] at h4
                  exact h3.trans (by simpa using h4)
        · exact (add_to_queue_frame u g nick now db).2

/-- C4: get_queue (claim_oldest) on a non-empty pool for an attribute
returns an entry of that attribute with minimal enqueued_at, removes
exactly that entry, and returns none leaving the store unchanged when
the pool for the attribute is empty; consequently an entry enqueued
strictly earlier than another of the same attribute is never passed
over in favour of the later one. -/
theorem claim_oldest_spec (db : DB) (g : String) (hpk : QueuePKUnique db.queues) :
    (db.queues.filter (fun r => r.gender == g) = [] → get_queue g db = (none, db)) ∧
    (db.queues.filter (fun r => r.gender == g) ≠ [] →
      ∃ c, c ∈ db.queues ∧ c.gender = g ∧
        (∀ e ∈ db.queues, e.gender = g → c.timestamp ≤ e.timestamp) ∧
        (get_queue g db).1 = some (c.user_id, c.nick, c.gender) ∧
        (get_queue g db).2.queues = db.queues.filter (fun r => !(r.user_id == c.user_id)) ∧
        (∀ e ∈ db.queues, (e ∈ (get_queue g db).2.queues ↔ e ≠ c)) ∧
        (∀ w1 ∈ db.queues, ∀ w2 ∈ db.queues, w1.gender = g → w2.gender = g →
          w1.timestamp < w2.timestamp → c.user_id ≠ w2.user_id)) := by
  constructor
  · exact get_queue_none g db
  · intro hne
    obtain ⟨c, hc1, hc2, hc3, hc4⟩ := get_queue_some g db hne
    refine ⟨c, hc1, hc2, hc3, by rw [hc4], by rw [hc4], ?_, ?_⟩
    · intro e he
      rw [hc4]
      simp only [List.mem_filter]
      constructor
      · rintro ⟨_, hb⟩ heq
        subst heq
        simp at hb
      · intro hneq
        refine ⟨he, ?_⟩
        simp only [Bool.not_eq_eq_eq_not, Bool.not_true, beq_eq_false_iff_ne, ne_eq]
        intro hequ
        exact hneq (queue_pk_inj db.queues hpk e he c hc1 hequ)
    · intro w1 h1 w2 h2 hg1 hg2 hlt heq
      have hcw : c = w2 := queue_pk_inj db.queues hpk c hc1 w2 h2 heq
      have h5 := hc3 w1 h1 hg1
      rw [hcw] at h5
      omega

/-- C4 witness: a concrete two-entry male pool in which the strictly older
entry (user 2, enqueued at 3) is the one claimed and removed. -/
theorem claim_oldest_spec_witness :
    ∃ c, c ∈ ({ queues := [{ user_id := 1, gender := "male", nick := "a", timestamp := 5 },
                           { user_id := 2, gender := "male", nick := "b", timestamp := 3 }],
                active_chats := [], user_genders := [] } : DB).queues ∧ c.gender = "male" ∧
      (∀ e ∈ ({ queues := [{ user_id := 1, gender := "male", nick := "a", timestamp := 5 },
                           { user_id := 2, gender := "male", nick := "b", timestamp := 3 }],
                active_chats := [], user_genders := [] } : DB).queues,
        e.gender = "male" → c.timestamp ≤ e.timestamp) ∧
      (get_queue "male" { queues := [{ user_id := 1, gender := "male", nick := "a", timestamp := 5 },
                                     { user_id := 2, gender := "male", nick := "b", timestamp := 3 }],
                          active_chats := [], user_genders := [] }).1 =
        some (c.user_id, c.nick, c.gender) ∧
      (get_queue "male" { queues := [{ user_id := 1, gender := "male", nick := "a", timestamp := 5 },
                                     { user_id := 2, gender := "male", nick := "b", timestamp := 3 }],
                          active_chats := [], user_genders := [] }).2.queues =
        ({ queues := [{ user_id := 1, gender := "male", nick := "a", timestamp := 5 },
                      { user_id := 2, gender := "male", nick := "b", timestamp := 3 }],
           active_chats := [], user_genders := [] } : DB).queues.filter
          (fun r => !(r.user_id == c.user_id)) ∧
      (∀ e ∈ ({ queues := [{ user_id := 1, gender := "male", nick := "a", timestamp := 5 },
                           { user_id := 2, gender := "male", nick := "b", timestamp := 3 }],
                active_chats := [], user_genders := [] } : DB).queues,
        (e ∈ (get_queue "male" { queues := [{ user_id := 1, gender := "male", nick := "a", timestamp := 5 },
                                            { user_id := 2, gender := "male", nick := "b", timestamp := 3 }],
                                 active_chats := [], user_genders := [] }).2.queues ↔ e ≠ c)) ∧
      (∀ w1 ∈ ({ queues := [{ user_id := 1, gender := "male", nick := "a", timestamp := 5 },
                            { user_id := 2, gender := "male", nick := "b", timestamp := 3 }],
                 active_chats := [], user_genders := [] } : DB).queues,
        ∀ w2 ∈ ({ queues := [{ user_id := 1, gender := "male", nick := "a", timestamp := 5 },
                             { user_id := 2, gender := "male", nick := "b", timestamp := 3 }],
                  active_chats := [], user_genders := [] } : DB).queues,
          w1.gender = "male" → w2.gender = "male" →
          w1.timestamp < w2.timestamp → c.user_id ≠ w2.user_id) :=
  (claim_oldest_spec
    { queues := [{ user_id := 1, gender := "male", nick := "a", timestamp := 5 },
                 { user_id := 2, gender := "male", nick := "b", timestamp := 3 }],
      active_chats := [], user_genders := [] } "male" (by decide)).2 (by decide)

/-- C9: is_rate_limited reports limited (the allow answer is the negation)
exactly when the user already has a recorded timestamp inside the
trailing 1-second window at call time; otherwise it records the current
time and reports not limited.  In particular two calls for the same
user 200 ms apart, starting from no recorded activity, give first
not-limited then limited. -/
theorem rate_limiter_spec (rl : Nat → List Nat) (u now : Nat) :
    ((is_rate_limited now u rl).1 = true ↔ ∃ t ∈ rl u, now - t < rateWindow) ∧
    ((is_rate_limited now u rl).1 = false →
      (is_rate_limited now u rl).2 u =
        (rl u).filter (fun t => now - t < rateWindow) ++ [now]) ∧
    (rl u = [] →
      (is_rate_limited now u rl).1 = false ∧
      (is_rate_limited (now + 200) u (is_rate_limited now u rl).2).1 = true) := by
  have hsplit : is_rate_limited now u rl =
      if ((rl u).filter (fun t => now - t < rateWindow)).length ≥ 1 then
        (true, fun v => if v == u then (rl u).filter (fun t => now - t < rateWindow) else rl v)
      else
        (false, fun v =>
          if v == u then (rl u).filter (fun t => now - t < rateWindow) ++ [now] else rl v) :=
    rfl
  refine ⟨?_, ?_, ?_⟩
  · by_cases h : ((rl u).filter (fun t => now - t < rateWindow)).length ≥ 1
    · rw [hsplit, if_pos h]
      simp only [true_iff]
      have hpos : 0 < ((rl u).filter (fun t => now - t < rateWindow)).length := h
      obtain ⟨x, hx⟩ := List.exists_mem_of_length_pos hpos
      have hx2 := List.mem_filter.mp hx
      exact ⟨x, hx2.1, by simpa using hx2.2⟩
    · rw [hsplit, if_neg h]
      simp only [Bool.false_eq_true, false_iff]
      rintro ⟨t, ht, hcond⟩
      apply h
      have : t ∈ (rl u).filter (fun v => now - v < rateWindow) :=
        List.mem_filter.mpr ⟨ht, by simpa using hcond⟩
      have hpos := List.length_pos.mpr (List.ne_nil_of_mem this)
      omega
  · intro hfalse
    by_cases h : ((rl u).filter (fun t => now - t < rateWindow)).length ≥ 1
    · rw [hsplit, if_pos h] at hfalse
      simp at hfalse
    · rw [hsplit, if_neg h]
      simp
  · intro hemp
    have hpr : (rl u).filter (fun t => now - t < rateWindow) = [] := by
      rw [hemp]
      rfl
    have hlen : ¬ ((rl u).filter (fun t => now - t < rateWindow)).length ≥ 1 := by
      rw [hpr]
      simp
    constructor
    · rw [hsplit, if_neg hlen]
    · rw [hsplit, if_neg hlen]
      simp only [is_rate_limited, hpr]
      simp [rateWindow]

/-- C9 witness: starting from no recorded activity, a call at time 0 is
admitted and a second call 200 ms later is rate limited. -/
theorem rate_limiter_spec_witness :
    (is_rate_limited 0 1 (fun _ => [])).1 = false ∧
    (is_rate_limited (0 + 200) 1 (is_rate_limited 0 1 (fun _ => [])).2).1 = true :=
  (rate_limiter_spec (fun _ => []) 1 0).2.2 rfl

/-- C7: for a paired, non-rate-limited sender, a text relay is rejected as
a policy violation (and nothing is forwarded) exactly when the
lowercased text contains a word of the static denylist; otherwise the
text is forwarded to the partner labelled as coming from an anonymous
peer ("*Anon:* " prefix). -/
theorem relay_policy_spec (now u : Nat) (text : String) (s : Sys) (r : ChatRow)
    (hrl : (is_rate_limited now u s.rl).1 = false)
    (hrow : rowFor s.db.active_chats u = some r)
    (hp : r.partner_id ≠ 0) :
    ((handle_generic_message now u true text s).2 = RelayOutcome.policyRejected ↔
      check_forbidden text = true) ∧
    (check_forbidden text = false →
      (handle_generic_message now u true text s).2 =
        RelayOutcome.sentText r.partner_id ("*Anon:* " ++ text)) := by
  have hp2 : (r.partner_id == 0) = false := by simpa using hp
  have hred : handle_generic_message now u true text s =
      (if check_forbidden text
        then ({ s with rl := (is_rate_limited now u s.rl).2 }, RelayOutcome.policyRejected)
        else ({ s with rl := (is_rate_limited now u s.rl).2 },
          RelayOutcome.sentText r.partner_id ("*Anon:* " ++ text))) := by
    simp only [handle_generic_message, hrl, Bool.false_eq_true, if_false, hrow, hp2, if_true]
  cases hf : check_forbidden text with
  | true =>
      rw [hred]
      simp [hf]
  | false =>
      rw [hred]
      simp [hf]

/-- C7 witness: user 1 is paired with user 2 and not rate limited; for the
clean payload hello, the policy-rejection outcome is equivalent to the
forbidden check and the text is forwarded with the Anon label. -/
theorem relay_policy_spec_witness :
    ((handle_generic_message 0 1 true "hello"
        { rl := fun _ => [],
          db := { queues := [], active_chats := [{ user_id := 1, partner_id := 2, timestamp := 0 }],
                  user_genders := [] } }).2 = RelayOutcome.policyRejected ↔
      check_forbidden "hello" = true) ∧
    (check_forbidden "hello" = false →
      (handle_generic_message 0 1 true "hello"
        { rl := fun _ => [],
          db := { queues := [], active_chats := [{ user_id := 1, partner_id := 2, timestamp := 0 }],
                  user_genders := [] } }).2 =
        RelayOutcome.sentText ({ user_id := 1, partner_id := 2, timestamp := 0 } : ChatRow).partner_id
          ("*Anon:* " ++ "hello")) :=
  relay_policy_spec 0 1 "hello"
    { rl := fun _ => [],
      db := { queues := [], active_chats := [{ user_id := 1, partner_id := 2, timestamp := 0 }],
              user_genders := [] } }
    { user_id := 1, partner_id := 2, timestamp := 0 }
    (by decide) (by decide) (by decide)

/-- C10 counterexample: a session created at time 0 survives a reaper sweep
run exactly 5 minutes (300 s) later, because the SQL comparison is
strict (timestamp < NOW() - 5 minutes); the claim asserts every sweep 5
or more minutes after creation deletes the session. -/
theorem reaper_boundary_counterexample :
    rowFor (cleanup_chats 300 [{ user_id := 1, partner_id := 2, timestamp := 0 }]) 1 =
      some { user_id := 1, partner_id := 2, timestamp := 0 } := by
  decide

/-- C10 amended: the last_active_at timestamp of a session row is written
only at pair creation — no sequence of relay operations changes the
active_chats table at all — and a reaper sweep at time now deletes the
row exactly when its timestamp is strictly older than now - 300
(strictly more than 5 minutes before the sweep), regardless of any
relaying in between. -/
theorem reaper_spec (s : Sys) (msgs : List MsgInput) (now u : Nat) (r : ChatRow)
    (hpk : ChatPKUnique s.db.active_chats)
    (hrow : rowFor s.db.active_chats u = some r) :
    (relayMany msgs s).db.active_chats = s.db.active_chats ∧
    (r.timestamp < now - 300 →
      rowFor (cleanup_chats now (relayMany msgs s).db.active_chats) u = none) ∧
    (¬ r.timestamp < now - 300 →
      rowFor (cleanup_chats now (relayMany msgs s).db.active_chats) u = some r) := by
  have hdb : (relayMany msgs s).db.active_chats = s.db.active_chats := by
    rw [relayMany_db]
  refine ⟨hdb, ?_, ?_⟩
  · intro hold
    rw [hdb]
    unfold cleanup_chats
    exact rowFor_filter_neg _ s.db.active_chats u r hpk hrow (by simp [hold])
  · intro hnew
    rw [hdb]
    unfold cleanup_chats
    exact rowFor_filter_pos _ s.db.active_chats u r hrow (by simp [hnew])

/-- C10 witness: a symmetric pair created at time 0, with one relayed text
in between, is removed by a sweep at time 301 and the relaying changed
nothing in the session store. -/
theorem reaper_spec_witness :
    (relayMany [{ now := 10, user_id := 1, isText := true, text := "hi" }]
        { rl := fun _ => [],
          db := { queues := [],
                  active_chats := [{ user_id := 1, partner_id := 2, timestamp := 0 },
                                   { user_id := 2, partner_id := 1, timestamp := 0 }],
                  user_genders := [] } }).db.active_chats =
      [{ user_id := 1, partner_id := 2, timestamp := 0 },
       { user_id := 2, partner_id := 1, timestamp := 0 }] ∧
    (({ user_id := 1, partner_id := 2, timestamp := 0 } : ChatRow).timestamp < 301 - 300 →
      rowFor (cleanup_chats 301
        (relayMany [{ now := 10, user_id := 1, isText := true, text := "hi" }]
          { rl := fun _ => [],
            db := { queues := [],
                    active_chats := [{ user_id := 1, partner_id := 2, timestamp := 0 },
                                     { user_id := 2, partner_id := 1, timestamp := 0 }],
                    user_genders := [] } }).db.active_chats) 1 = none) ∧
    (¬ ({ user_id := 1, partner_id := 2, timestamp := 0 } : ChatRow).timestamp < 301 - 300 →
      rowFor (cleanup_chats 301
        (relayMany [{ now := 10, user_id := 1, isText := true, text := "hi" }]
          { rl := fun _ => [],
            db := { queues := [],
                    active_chats := [{ user_id := 1, partner_id := 2, timestamp := 0 },
                                     { user_id := 2, partner_id := 1, timestamp := 0 }],
                    user_genders := [] } }).db.active_chats) 1 =
        some { user_id := 1, partner_id := 2, timestamp := 0 }) :=
  reaper_spec
    { rl := fun _ => [],
      db := { queues := [],
              active_chats := [{ user_id := 1, partner_id := 2, timestamp := 0 },
                               { user_id := 2, partner_id := 1, timestamp := 0 }],
              user_genders := [] } }
    [{ now := 10, user_id := 1, isText := true, text := "hi" }] 301 1
    { user_id := 1, partner_id := 2, timestamp := 0 }
    (by decide) (by decide)

theorem find_map_upsert (qs : List QueueRow) (u : Nat) (g nick : String) (now : Nat)
    (h : qs.any (fun r => r.user_id == u) = true) :
    (qs.map (fun r =>
      if r.user_id == u then { r with gender := g, nick := nick, timestamp := now }
      else r)).find? (fun r => r.user_id == u) =
      some { user_id := u, gender := g, nick := nick, timestamp := now } := by
  induction qs with
  | nil => simp at h
  | cons x t ih =>
      by_cases hx : (x.user_id == u) = true
      · have hxu : x.user_id = u := by simpa using hx
        simp only [List.map_cons, if_pos hx, hxu]
        simp [List.find?_cons]
      · have ht : t.any (fun r => r.user_id == u) = true := by
          rcases List.any_eq_true.mp h with ⟨y, hy, hyp⟩
          rcases List.mem_cons.mp hy with hy1 | hy2
          · subst hy1; exact absurd hyp hx
          · exact List.any_eq_true.mpr ⟨y, hy2, hyp⟩
        simp only [List.map_cons, if_neg hx]
        rw [@List.find?_cons_of_neg _ (fun r => r.user_id == u) x _ hx]
        exact ih ht

theorem add_to_queue_find (u : Nat) (g nick : String) (now : Nat) (db : DB) :
    queueRowFor (add_to_queue u g nick now db).queues u =
      some { user_id := u, gender := g, nick := nick, timestamp := now } := by
  unfold add_to_queue queueRowFor
  by_cases h : db.queues.any (fun r => r.user_id == u) = true
  · rw [if_pos h]
    exact find_map_upsert db.queues u g nick now h
  · rw [if_neg h]
    rw [List.find?_append]
    have hn : db.queues.find? (fun r => r.user_id == u) = none := by
      apply List.find?_eq_none.mpr
      intro x hx hxp
      exact h (List.any_eq_true.mpr ⟨x, hx, hxp⟩)
    rw [hn]
    simp [List.find?]

/-- C2 counterexample: with user 2 waiting in the female pool and user 1
(male) requesting a match, a storage error raised by the session-row
INSERT leaves the Waiting Pool missing the claimed candidate — not equal
to its pre-attempt state — because get_queue committed the DELETE in its
own earlier transaction and nothing rolls it back. -/
theorem pairing_failure_counterexample :
    (try_pair_gender_insertFail 5 "x" 1 "male"
        { queues := [{ user_id := 2, gender := "female", nick := "n", timestamp := 0 }],
          active_chats := [], user_genders := [] }).2 = PairOutcome.storeError ∧
    (try_pair_gender_insertFail 5 "x" 1 "male"
        { queues := [{ user_id := 2, gender := "female", nick := "n", timestamp := 0 }],
          active_chats := [], user_genders := [] }).1.queues = [] ∧
    (try_pair_gender_insertFail 5 "x" 1 "male"
        { queues := [{ user_id := 2, gender := "female", nick := "n", timestamp := 0 }],
          active_chats := [], user_genders := [] }).1.queues ≠
      [{ user_id := 2, gender := "female", nick := "n", timestamp := 0 }] := by
  decide

/-- C2 amended: when the pairing INSERT fails, the Session Store (and the
user_genders table) are left exactly as before the attempt, but the
Waiting Pool is left with the claimed candidate removed — the claim-and-
delete was a separately committed transaction and is not compensated. -/
theorem pairing_failure_spec (db : DB) (now : Nat) (nick : String) (u : Nat) (g og : String)
    (hog : (g = "male" ∧ og = "female") ∨ (g = "female" ∧ og = "male"))
    (hses : rowFor db.active_chats u = none)
    (hne : db.queues.filter (fun r => r.gender == og) ≠ []) :
    ∃ c, c ∈ db.queues ∧ c.gender = og ∧
      try_pair_gender_insertFail now nick u g db =
        ({ db with queues := db.queues.filter (fun r => !(r.user_id == c.user_id)) },
          PairOutcome.storeError) := by
  obtain ⟨c, hc1, hc2, hc3, hc4⟩ := get_queue_some og db hne
  refine ⟨c, hc1, hc2, ?_⟩
  have hnot : (rowFor db.active_chats u).isSome = false := by
    rw [hses]
    rfl
  rcases hog with ⟨hg, hogf⟩ | ⟨hg, hogf⟩
  · subst hg
    subst hogf
    simp only [try_pair_gender_insertFail, hnot, Bool.false_eq_true, if_false,
      beq_self_eq_true, if_true, hc4]
  · subst hg
    subst hogf
    have hfm : ("female" == "male") = false := by decide
    simp only [try_pair_gender_insertFail, hnot, Bool.false_eq_true, if_false, hfm,
      beq_self_eq_true, if_true, hc4]

/-- C2 witness for the amended statement, at the concrete store of the
counterexample: the candidate row of user 2 is the one removed. -/
theorem pairing_failure_spec_witness :
    ∃ c, c ∈ ({ queues := [{ user_id := 2, gender := "female", nick := "n", timestamp := 0 }],
                active_chats := [], user_genders := [] } : DB).queues ∧ c.gender = "female" ∧
      try_pair_gender_insertFail 5 "x" 1 "male"
          { queues := [{ user_id := 2, gender := "female", nick := "n", timestamp := 0 }],
            active_chats := [], user_genders := [] } =
        ({ ({ queues := [{ user_id := 2, gender := "female", nick := "n", timestamp := 0 }],
              active_chats := [], user_genders := [] } : DB) with
            queues := ({ queues := [{ user_id := 2, gender := "female", nick := "n", timestamp := 0 }],
                         active_chats := [], user_genders := [] } : DB).queues.filter
              (fun r => !(r.user_id == c.user_id)) },
          PairOutcome.storeError) :=
  pairing_failure_spec
    { queues := [{ user_id := 2, gender := "female", nick := "n", timestamp := 0 }],
      active_chats := [], user_genders := [] }
    5 "x" 1 "male" "female" (Or.inl ⟨rfl, rfl⟩) (by decide) (by decide)

/-- C3 counterexample, at a state reachable from the empty store (see
queuedWhilePairedStore): user 11 waits in the male pool while already
paired with user 10.  User 12 then requests a female match: the oldest
male entry (user 11) is claimed and the outcome reports paired, but no
symmetric session pair (12, 11) is created — the row of user 11 is
rewritten to partner 11 itself, so row(12,11) exists without row(11,12)
and the resulting session store is not symmetric, refuting the claim as
stated. -/
theorem request_match_symmetry_counterexample :
    queueRowFor queuedWhilePairedStore.queues 11 =
      some { user_id := 11, gender := "male", nick := "n2", timestamp := 2 } ∧
    rowFor queuedWhilePairedStore.active_chats 11 =
      some { user_id := 11, partner_id := 10, timestamp := 3 } ∧
    (try_pair_gender 4 "n4" 12 "female" queuedWhilePairedStore).2 = PairOutcome.paired 11 ∧
    rowFor (try_pair_gender 4 "n4" 12 "female" queuedWhilePairedStore).1.active_chats 12 =
      some { user_id := 12, partner_id := 11, timestamp := 4 } ∧
    rowFor (try_pair_gender 4 "n4" 12 "female" queuedWhilePairedStore).1.active_chats 11 =
      some { user_id := 11, partner_id := 11, timestamp := 4 } ∧
    ¬ SymmChats (try_pair_gender 4 "n4" 12 "female" queuedWhilePairedStore).1.active_chats := by
  decide

/-- C3 amended: behaviour of try_pair_gender (request_match), on stores in
which waiting users have no session row and differ from the caller: if
the caller already has a session row the call is a no-op; otherwise,
with the opposite pool non-empty, a minimal-timestamp candidate c is
removed from the pool and the symmetric pair (caller, c) is created
with both rows visible; otherwise the caller is upserted into the pool
under the given attribute with the freshly generated alias.  The
freshness proviso on the claimed candidate is necessary: the
counterexample shows a reachable store (a user re-declaring the
opposite gender while queued keeps a stale queue row while paired) on
which the created pair is not symmetric. -/
theorem request_match_spec (db : DB) (now : Nat) (nick : String) (u : Nat) (g og : String)
    (hog : (g = "male" ∧ og = "female") ∨ (g = "female" ∧ og = "male"))
    (hwf : ∀ q ∈ db.queues, rowFor db.active_chats q.user_id = none ∧ q.user_id ≠ u) :
    ((rowFor db.active_chats u).isSome = true →
      try_pair_gender now nick u g db = (db, PairOutcome.alreadyPaired)) ∧
    (rowFor db.active_chats u = none →
      (db.queues.filter (fun r => r.gender == og) ≠ [] →
        ∃ c, c ∈ db.queues ∧ c.gender = og ∧
          (∀ e ∈ db.queues, e.gender = og → c.timestamp ≤ e.timestamp) ∧
          try_pair_gender now nick u g db =
            ({ queues := db.queues.filter (fun r => !(r.user_id == c.user_id)),
               active_chats := db.active_chats ++
                 [{ user_id := u, partner_id := c.user_id, timestamp := now },
                  { user_id := c.user_id, partner_id := u, timestamp := now }],
               user_genders := db.user_genders }, PairOutcome.paired c.user_id) ∧
          rowFor (try_pair_gender now nick u g db).1.active_chats u =
            some { user_id := u, partner_id := c.user_id, timestamp := now } ∧
          rowFor (try_pair_gender now nick u g db).1.active_chats c.user_id =
            some { user_id := c.user_id, partner_id := u, timestamp := now }) ∧
      (db.queues.filter (fun r => r.gender == og) = [] →
        try_pair_gender now nick u g db =
          (add_to_queue u g nick now db, PairOutcome.queued nick) ∧
        queueRowFor (try_pair_gender now nick u g db).1.queues u =
          some { user_id := u, gender := g, nick := nick, timestamp := now })) := by
  constructor
  · intro hsome
    rcases hog with ⟨hg, _⟩ | ⟨hg, _⟩ <;> subst hg <;>
      simp only [try_pair_gender, hsome, if_true]
  · intro hnone
    have hnot : (rowFor db.active_chats u).isSome = false := by
      rw [hnone]
      rfl
    constructor
    · intro hne
      obtain ⟨c, hc1, hc2, hc3, hc4⟩ := get_queue_some og db hne
      have hcses : rowFor db.active_chats c.user_id = none := (hwf c hc1).1
      have hcne : u ≠ c.user_id := fun h => (hwf c hc1).2 h.symm
      have hfresh := create_pair_fresh now u c.user_id db.active_chats hnone hcses hcne
      have hres : try_pair_gender now nick u g db =
          ({ queues := db.queues.filter (fun r => !(r.user_id == c.user_id)),
             active_chats := db.active_chats ++
               [{ user_id := u, partner_id := c.user_id, timestamp := now },
                { user_id := c.user_id, partner_id := u, timestamp := now }],
             user_genders := db.user_genders }, PairOutcome.paired c.user_id) := by
        rcases hog with ⟨hg, hogf⟩ | ⟨hg, hogf⟩
        · subst hg
          subst hogf
          simp only [try_pair_gender, hnot, Bool.false_eq_true, if_false,
            beq_self_eq_true, if_true, hc4, hfresh]
        · subst hg
          subst hogf
          have hfm : ("female" == "male") = false := by decide
          simp only [try_pair_gender, hnot, Bool.false_eq_true, if_false, hfm,
            beq_self_eq_true, if_true, hc4, hfresh]
      refine ⟨c, hc1, hc2, hc3, hres, ?_, ?_⟩
      · rw [hres]
        unfold rowFor
        rw [List.find?_append]
        have h1 : rowFor db.active_chats u = none := hnone
        unfold rowFor at h1
        rw [h1]
        simp [List.find?_cons]
      · rw [hres]
        unfold rowFor
        rw [List.find?_append]
        have h1 : rowFor db.active_chats c.user_id = none := hcses
        unfold rowFor at h1
        rw [h1]
        have hne2 : (u == c.user_id) = false := by simpa using hcne
        simp [List.find?_cons, hne2]
    · intro hemp
      have hq := get_queue_none og db hemp
      have hres : try_pair_gender now nick u g db =
          (add_to_queue u g nick now db, PairOutcome.queued nick) := by
        rcases hog with ⟨hg, hogf⟩ | ⟨hg, hogf⟩
        · subst hg
          subst hogf
          simp only [try_pair_gender, hnot, Bool.false_eq_true, if_false,
            beq_self_eq_true, if_true, hq]
        · subst hg
          subst hogf
          have hfm : ("female" == "male") = false := by decide
          simp only [try_pair_gender, hnot, Bool.false_eq_true, if_false, hfm,
            beq_self_eq_true, if_true, hq]
      refine ⟨hres, ?_⟩
      rw [hres]
      exact add_to_queue_find u g nick now db

/-- C3 witness: user 1 (male) requests a match while user 2 waits in the
female pool; the candidate is claimed and the symmetric pair appears. -/
theorem request_match_spec_witness :
    ∃ c, c ∈ ({ queues := [{ user_id := 2, gender := "female", nick := "n", timestamp := 0 }],
                active_chats := [], user_genders := [] } : DB).queues ∧ c.gender = "female" ∧
      (∀ e ∈ ({ queues := [{ user_id := 2, gender := "female", nick := "n", timestamp := 0 }],
                active_chats := [], user_genders := [] } : DB).queues,
        e.gender = "female" → c.timestamp ≤ e.timestamp) ∧
      try_pair_gender 5 "x" 1 "male"
          { queues := [{ user_id := 2, gender := "female", nick := "n", timestamp := 0 }],
            active_chats := [], user_genders := [] } =
        ({ queues := ({ queues := [{ user_id := 2, gender := "female", nick := "n", timestamp := 0 }],
                        active_chats := [], user_genders := [] } : DB).queues.filter
              (fun r => !(r.user_id == c.user_id)),
           active_chats := ({ queues := [{ user_id := 2, gender := "female", nick := "n", timestamp := 0 }],
                              active_chats := [], user_genders := [] } : DB).active_chats ++
             [{ user_id := 1, partner_id := c.user_id, timestamp := 5 },
              { user_id := c.user_id, partner_id := 1, timestamp := 5 }],
           user_genders := ({ queues := [{ user_id := 2, gender := "female", nick := "n", timestamp := 0 }],
                              active_chats := [], user_genders := [] } : DB).user_genders },
          PairOutcome.paired c.user_id) ∧
      rowFor (try_pair_gender 5 "x" 1 "male"
          { queues := [{ user_id := 2, gender := "female", nick := "n", timestamp := 0 }],
            active_chats := [], user_genders := [] }).1.active_chats 1 =
        some { user_id := 1, partner_id := c.user_id, timestamp := 5 } ∧
      rowFor (try_pair_gender 5 "x" 1 "male"
          { queues := [{ user_id := 2, gender := "female", nick := "n", timestamp := 0 }],
            active_chats := [], user_genders := [] }).1.active_chats c.user_id =
        some { user_id := c.user_id, partner_id := 1, timestamp := 5 } :=
  ((request_match_spec
      { queues := [{ user_id := 2, gender := "female", nick := "n", timestamp := 0 }],
        active_chats := [], user_genders := [] }
      5 "x" 1 "male" "female" (Or.inl ⟨rfl, rfl⟩) (by decide)).2 (by decide)).1 (by decide)

/-- C1 counterexample: from a symmetric, key-unique store in which user 2
is already paired with user 3, the pairing transaction create_pair(1, 2)
breaks symmetry: the ON CONFLICT clause sets the existing row of user 2
to partner 2 itself (the single bound partner_id value), and the old
partner row of user 3 is left dangling — so row(1,2) exists without
row(2,1), refuting the claim that symmetry survives create_pair when a
participant already has a session row with a different partner. -/
theorem session_symmetry_counterexample :
    SymmChats [{ user_id := 2, partner_id := 3, timestamp := 0 },
               { user_id := 3, partner_id := 2, timestamp := 0 }] ∧
    ChatPKUnique [{ user_id := 2, partner_id := 3, timestamp := 0 },
                  { user_id := 3, partner_id := 2, timestamp := 0 }] ∧
    ¬ SymmChats (create_pair 1 1 2
        [{ user_id := 2, partner_id := 3, timestamp := 0 },
         { user_id := 3, partner_id := 2, timestamp := 0 }]) := by
  decide

/-- C1 amended: session symmetry is an invariant of end (the teardown in stop)
and of expire_older_than (the reaper sweep), and of create_pair(a, b)
when a ≠ b and neither participant already has a session row; when a or
b already has a row with a different partner, create_pair can break the
invariant (see the counterexample). -/
theorem session_symmetry_spec (cs : List ChatRow) (u p now : Nat) (hs : SymmChats cs) :
    SymmChats (end_chats u cs) ∧
    SymmChats (cleanup_chats now cs) ∧
    (rowFor cs u = none → rowFor cs p = none → u ≠ p →
      SymmChats (create_pair now u p cs)) := by
  refine ⟨symm_end u cs hs, symm_cleanup now cs hs, ?_⟩
  intro hu hp hne
  exact symm_create_fresh now u p cs hs hu hp hne

/-- C1 witness: on the symmetric two-row store pairing users 1 and 2,
ending user 3, sweeping at time 1000, and freshly pairing users 3 and 4
all preserve symmetry. -/
theorem session_symmetry_spec_witness :
    SymmChats (end_chats 3 [{ user_id := 1, partner_id := 2, timestamp := 7 },
                            { user_id := 2, partner_id := 1, timestamp := 7 }]) ∧
    SymmChats (cleanup_chats 1000 [{ user_id := 1, partner_id := 2, timestamp := 7 },
                                   { user_id := 2, partner_id := 1, timestamp := 7 }]) ∧
    SymmChats (create_pair 1000 3 4 [{ user_id := 1, partner_id := 2, timestamp := 7 },
                                     { user_id := 2, partner_id := 1, timestamp := 7 }]) :=
  ⟨(session_symmetry_spec [{ user_id := 1, partner_id := 2, timestamp := 7 },
      { user_id := 2, partner_id := 1, timestamp := 7 }] 3 4 1000 (by decide)).1,
   (session_symmetry_spec [{ user_id := 1, partner_id := 2, timestamp := 7 },
      { user_id := 2, partner_id := 1, timestamp := 7 }] 3 4 1000 (by decide)).2.1,
   (session_symmetry_spec [{ user_id := 1, partner_id := 2, timestamp := 7 },
      { user_id := 2, partner_id := 1, timestamp := 7 }] 3 4 1000 (by decide)).2.2
     (by decide) (by decide) (by decide)⟩
